import Mathlib

/-!
Verification of the booking-villa-backend availability and payment logic.

Shallow embedding conventions, fixed once here:

* `time.Time` instants are modelled at day granularity as `Int` (days since
  1970-01-01).  Every date that reaches the booking service is produced by
  `time.Parse("2006-01-02", s)` in the HTTP handlers, i.e. a UTC
  midnight-anchored instant, so instants and calendar days coincide on all
  call paths.  `t.After u` / `t.Before u` / `t.Equal u` become `u < t`,
  `t < u`, `t = u`; `AddDate(0,0,n)` becomes `· + n`.
* Clock times of day ("15:04" strings) stay strings, exactly as in the Go
  structs; they are interpreted only through `timeToMinutes`.
* Go `float64` money amounts are modelled as `ℚ` (exact arithmetic; the
  concrete values exercised here are small integers, where `float64`
  arithmetic is also exact).
* The DynamoDB table is modelled as explicit lists of records.  The GSI1
  query of `ListBookingsByProperty` compares `GSI1SK = "DATE#" + ISO date`
  strings lexicographically; on equal-width ISO dates that order agrees
  with chronological order, so it is modelled as `Int` comparison of the
  day index.  Storage I/O failure paths (HTTP 500 responses) are external
  collaborator failures and are not modelled; lookups are pure list
  searches.
-/

namespace BookingVilla

/-- Model of Go `time.Parse("15:04", s)` as used by `CheckAvailability`
(service.go lines 251-261): a 1- or 2-digit hour at most 23, a literal
colon, exactly two minute digits reading at most 59, and no trailing
input; on success the result is `t.Hour()*60 + t.Minute()`, minutes from
midnight. -/
def parseClock (s : String) : Option Nat :=
  match s.toList with
  | [] => none
  | c1 :: rest =>
    if c1.isDigit then
      let hr : Nat × List Char :=
        match rest with
        | c2 :: rest2 =>
          if c2.isDigit then (10 * (c1.toNat - 48) + (c2.toNat - 48), rest2)
          else (c1.toNat - 48, c2 :: rest2)
        | [] => (c1.toNat - 48, [])
      match hr.2 with
      | ':' :: m1 :: m2 :: [] =>
        if m1.isDigit ∧ m2.isDigit then
          let m : Nat := 10 * (m1.toNat - 48) + (m2.toNat - 48)
          if hr.1 ≤ 23 ∧ m ≤ 59 then some (hr.1 * 60 + m) else none
        else none
      | _ => none
    else none

/-- The `timeToMinutes` closure of `CheckAvailability` (service.go lines
252-261): empty string and unparseable strings both yield the supplied
default. -/
def timeToMinutes (tStr : String) (defaultMinutes : Nat) : Nat :=
  if tStr = "" then defaultMinutes
  else
    match parseClock tStr with
    | none => defaultMinutes
    | some m => m

/-- Default check-in time of day, 14:00 (service.go line 264). -/
def defaultCheckInMinutes : Nat := 14 * 60

/-- Default checkout time of day, 11:00 (service.go line 265). -/
def defaultCheckOutMinutes : Nat := 11 * 60

/-- Booking record (service.go lines 34-85).  DynamoDB representation keys
(PK/SK/GSI1PK/GSI1SK) are derived from `id`, `propertyId` and `checkIn`
and are not duplicated here; timestamps and free-text metadata fields not
consulted by any modelled operation are omitted. -/
structure Booking where
  id : String
  propertyId : String
  guestName : String
  guestPhone : String
  numGuests : Int
  checkIn : Int
  checkInTime : String
  checkOut : Int
  checkOutTime : String
  numNights : Int
  pricePerNight : ℚ
  totalAmount : ℚ
  currency : String
  status : String
  bookedBy : String
  inviteCode : String
  deriving DecidableEq

/-- Date/time conflict test of one `CheckAvailability` loop iteration
(service.go lines 277-307), with the candidate booking's data first and
the existing booking's data second.  Inclusive date-overlap test
`!checkIn.After(b.CheckOut) && !checkOut.Before(b.CheckIn)`, then the two
boundary-touch tie-breaks (each `continue`s without falling through), and
otherwise an unconditional conflict. -/
def datesConflict (cIn cOut : Int) (cInT cOutT : String)
    (bIn bOut : Int) (bInT bOutT : String) : Bool :=
  if cIn ≤ bOut ∧ bIn ≤ cOut then
    if cIn = bOut then
      decide (timeToMinutes cInT defaultCheckInMinutes <
        timeToMinutes bOutT defaultCheckOutMinutes)
    else if cOut = bIn then
      decide (timeToMinutes cOutT defaultCheckOutMinutes >
        timeToMinutes bInT defaultCheckInMinutes)
    else
      true
  else false

/-- Full `CheckAvailability` loop body (service.go lines 271-307):
cancelled bookings are skipped before the date logic runs. -/
def conflictsWith (cIn cOut : Int) (cInT cOutT : String) (b : Booking) : Bool :=
  if b.status = "cancelled" then false
  else datesConflict cIn cOut cInT cOutT b.checkIn b.checkOut b.checkInTime b.checkOutTime

/-- `ListBookingsByProperty` with a date range (service.go lines 189-224):
the GSI1 query keeps exactly the bookings of the property whose check-in
date (the `GSI1SK` sort key) lies between `rangeStart` and `rangeEnd`
inclusive. -/
def listBookingsByProperty (store : List Booking) (propertyId : String)
    (rangeStart rangeEnd : Int) : List Booking :=
  store.filter fun b =>
    decide (b.propertyId = propertyId ∧ rangeStart ≤ b.checkIn ∧ b.checkIn ≤ rangeEnd)

/-- `CheckAvailability` (service.go lines 238-311): fetch the property's
bookings whose check-in date lies in the window from 90 days before the
candidate check-in to one day after the candidate checkout, then return
false exactly when some fetched booking conflicts (the loop returns false
on the first conflict and true after the loop). -/
def checkAvailability (store : List Booking) (propertyId : String)
    (checkIn checkOut : Int) (checkInTime checkOutTime : String) : Bool :=
  let fetched := listBookingsByProperty store propertyId (checkIn - 90) (checkOut + 1)
  !(fetched.any (conflictsWith checkIn checkOut checkInTime checkOutTime))

/-- Truncation toward zero of a rational, the semantics of Go's `int(x)`
conversion from `float64`. -/
def goTruncRat (q : ℚ) : Int := if 0 ≤ q then ⌊q⌋ else ⌈q⌉

/-- Night count computed by `CreateBooking` (service.go line 114):
`int(CheckOut.Sub(CheckIn).Hours() / 24)`.  At day granularity the
duration is `checkOut - checkIn` days, so its hour count is that times 24;
the arithmetic is exact in `float64` for every realistic span, so `ℚ`
models it faithfully. -/
def numNightsCalc (checkIn checkOut : Int) : Int :=
  goTruncRat (((checkOut - checkIn : Int) : ℚ) * 24 / 24)

/-- Field normalisation performed by `CreateBooking` (service.go lines
98-132) before the record is persisted: compute `NumNights` when unset,
compute `TotalAmount` when unset and a positive nightly price is known,
default the status to `pending` and the currency to `INR`.  The generated
UUID and the derived DynamoDB keys/timestamps are representation details
not modelled. -/
def createBookingNormalize (b : Booking) : Booking :=
  let nights : Int := if b.numNights = 0 then numNightsCalc b.checkIn b.checkOut else b.numNights
  let total : ℚ :=
    if b.totalAmount = 0 ∧ 0 < b.pricePerNight then b.pricePerNight * (nights : ℚ)
    else b.totalAmount
  let status : String := if b.status = "" then "pending" else b.status
  let currency : String := if b.currency = "" then "INR" else b.currency
  { b with numNights := nights, totalAmount := total, status := status, currency := currency }

/-- `CreateBooking` (service.go lines 97-133): normalise the record and
`PutItem` it, returning the stored record and the updated table. -/
def createBooking (store : List Booking) (b : Booking) : Booking × List Booking :=
  let stored := createBookingNormalize b
  (stored, store ++ [stored])

/-- Day index (days since 1970-01-01) of a proleptic-Gregorian civil date,
the standard days-from-civil computation; all intermediate divisions act
on nonnegative operands for the years exercised here. -/
def daysFromCivil (y m d : Int) : Int :=
  let y2 : Int := if m ≤ 2 then y - 1 else y
  let era : Int := (if 0 ≤ y2 then y2 else y2 - 399) / 400
  let yoe : Int := y2 - era * 400
  let mp : Int := (m + 9) % 12
  let doy : Int := (153 * mp + 2) / 5 + d - 1
  let doe : Int := yoe * 365 + yoe / 4 - yoe / 100 + doy
  era * 146097 + doe - 719468

/-- Number of days in a month of the proleptic Gregorian calendar, as
validated by Go's date parser. -/
def daysInMonth (y m : Int) : Int :=
  if m = 2 then
    if y % 4 = 0 ∧ (y % 100 ≠ 0 ∨ y % 400 = 0) then 29 else 28
  else if m = 4 ∨ m = 6 ∨ m = 9 ∨ m = 11 then 30
  else 31

/-- Model of Go `time.Parse("2006-01-02", s)` as used by every booking
handler: exactly four year digits, a dash, two month digits in 1..12, a
dash, two day digits valid for that month, nothing trailing; the result
is the UTC-midnight instant, here its day index. -/
def parseDate (s : String) : Option Int :=
  match s.toList with
  | [y1, y2, y3, y4, '-', m1, m2, '-', d1, d2] =>
    if y1.isDigit ∧ y2.isDigit ∧ y3.isDigit ∧ y4.isDigit ∧
        m1.isDigit ∧ m2.isDigit ∧ d1.isDigit ∧ d2.isDigit then
      let y : Int := 1000 * (y1.toNat - 48 : Nat) + 100 * (y2.toNat - 48 : Nat) +
        10 * (y3.toNat - 48 : Nat) + (y4.toNat - 48 : Nat)
      let m : Int := 10 * (m1.toNat - 48 : Nat) + (m2.toNat - 48 : Nat)
      let d : Int := 10 * (d1.toNat - 48 : Nat) + (d2.toNat - 48 : Nat)
      if 1 ≤ m ∧ m ≤ 12 ∧ 1 ≤ d ∧ d ≤ daysInMonth y m then
        some (daysFromCivil y m d)
      else none
    else none
  | _ => none

/-- Payment record (payments service, part_008 lines 48-80), DynamoDB keys
and creation timestamp omitted as above. -/
structure Payment where
  id : String
  bookingId : String
  amount : ℚ
  currency : String
  method : String
  reference : String
  recordedBy : String
  notes : String
  paymentDate : Int
  deriving DecidableEq

/-- Payment status classification (part_008 lines 18-25). -/
inductive PaymentStatus where
  | pending
  | due
  | completed
  deriving DecidableEq

/-- Payment summary (part_008 lines 82-92). -/
structure PaymentSummary where
  bookingId : String
  totalAmount : ℚ
  totalPaid : ℚ
  totalDue : ℚ
  status : PaymentStatus
  paymentCount : Nat
  currency : String
  lastPaymentDate : Option Int
  deriving DecidableEq

/-- Running total of the `totalPaid += payment.Amount` loop (part_008
lines 189-194). -/
def totalPaidOf (payments : List Payment) : ℚ :=
  payments.foldl (fun acc p => acc + p.amount) 0

/-- Running `lastPaymentDate` of the same loop: replaced whenever the next
payment's date is strictly later (`PaymentDate.After`). -/
def lastPaymentDateOf (payments : List Payment) : Option Int :=
  payments.foldl
    (fun acc p =>
      match acc with
      | none => some p.paymentDate
      | some d => if d < p.paymentDate then some p.paymentDate else some d)
    none

/-- `CalculatePaymentStatus` (part_008 lines 166-220) as a pure function
of the booking record and its payment list: `totalDue` starts as
`TotalAmount - totalPaid`; the status switch takes `pending` when there
are no payments, otherwise `completed` (resetting `totalDue` to 0) when
`totalPaid >= TotalAmount`, otherwise `due`. -/
def calculatePaymentStatus (booking : Booking) (payments : List Payment) : PaymentSummary :=
  let totalPaid := totalPaidOf payments
  let status : PaymentStatus :=
    if payments.length = 0 then PaymentStatus.pending
    else if booking.totalAmount ≤ totalPaid then PaymentStatus.completed
    else PaymentStatus.due
  let totalDue : ℚ :=
    if payments.length ≠ 0 ∧ booking.totalAmount ≤ totalPaid then 0
    else booking.totalAmount - totalPaid
  { bookingId := booking.id
    totalAmount := booking.totalAmount
    totalPaid := totalPaid
    totalDue := totalDue
    status := status
    paymentCount := payments.length
    currency := booking.currency
    lastPaymentDate := lastPaymentDateOf payments }

/-- HTTP response as produced through `APIResponse`/`ErrorResponse`
(handler.go lines 37-53): the status code, and for error responses the
`{"error": message}` payload; success bodies are entity-specific JSON and
are not modelled beyond `errorMsg = none`. -/
structure ApiResponse where
  statusCode : Nat
  errorMsg : Option String
  deriving DecidableEq

/-- `ErrorResponse` (handler.go lines 51-53). -/
def errorResponse (statusCode : Nat) (message : String) : ApiResponse :=
  { statusCode := statusCode, errorMsg := some message }

/-- JWT claims as supplied by the auth middleware. -/
structure Claims where
  phone : String
  role : String
  deriving DecidableEq

/-- Property metadata consumed by the booking handlers. -/
structure Property where
  id : String
  name : String
  ownerId : String
  pricePerNight : ℚ
  currency : String
  isActive : Bool
  deriving DecidableEq

/-- `CreateBookingRequest` (handler.go lines 56-70) after JSON decoding. -/
structure CreateBookingRequest where
  propertyId : String
  guestName : String
  guestPhone : String
  guestEmail : String
  numGuests : Int
  checkIn : String
  checkOut : String
  notes : String
  specialRequests : String
  inviteCode : String
  pricePerNight : ℚ
  totalAmount : ℚ
  agentCommission : ℚ
  deriving DecidableEq

/-- Invite-code gate of `HandleCreateBooking` (handler.go lines 136-148).
`validateInvite` stands for the property service's `ValidateInviteCode`
collaborator call, yielding the code's target property id when the code
is valid and `none` when validation errors; a `some` result here is the
early error response, `none` means the gate passed. -/
def inviteGate (validateInvite : String → Option String)
    (code propertyId : String) : Option ApiResponse :=
  if code = "" then none
  else
    match validateInvite code with
    | none => some (errorResponse 400 "Invalid invite code")
    | some codePropertyId =>
      if codePropertyId ≠ propertyId then
        some (errorResponse 400 "Invite code is for a different property")
      else none

/-- `HandleCreateBooking` (handler.go lines 73-207).  `claims?` is the
auth-middleware result, `body?` the JSON decoding result, `today` the day
index of `time.Now().Truncate(24h)`, `properties` the property table and
`store` the booking table; the returned pair is the HTTP response and the
booking table after the call.  Notification fan-out is fire-and-forget
and does not touch bookings.  The availability call passes no clock
times, so both default. -/
def handleCreateBooking (claims? : Option Claims) (body? : Option CreateBookingRequest)
    (today : Int) (properties : List Property)
    (validateInvite : String → Option String)
    (store : List Booking) : ApiResponse × List Booking :=
  match claims? with
  | none => (errorResponse 401 "Unauthorized", store)
  | some claims =>
    match body? with
    | none => (errorResponse 400 "Invalid request body", store)
    | some req =>
      if req.propertyId = "" ∨ req.guestName = "" ∨ req.guestPhone = "" ∨
          req.checkIn = "" ∨ req.checkOut = "" then
        (errorResponse 400
          "PropertyID, guestName, guestPhone, checkIn, and checkOut are required", store)
      else
        match parseDate req.checkIn with
        | none => (errorResponse 400 "Invalid checkIn date format. Use YYYY-MM-DD", store)
        | some checkIn =>
          match parseDate req.checkOut with
          | none => (errorResponse 400 "Invalid checkOut date format. Use YYYY-MM-DD", store)
          | some checkOut =>
            if checkOut ≤ checkIn then
              (errorResponse 400 "Check-out must be after check-in", store)
            else if checkIn < today then
              (errorResponse 400 "Check-in cannot be in the past", store)
            else
              match properties.find? (fun p => p.id == req.propertyId) with
              | none => (errorResponse 404 "Property not found", store)
              | some property =>
                if property.isActive = false then
                  (errorResponse 400 "Property is not active", store)
                else if checkAvailability store req.propertyId checkIn checkOut "" "" = false then
                  (errorResponse 409 "Property is not available for the selected dates", store)
                else
                  match inviteGate validateInvite req.inviteCode req.propertyId with
                  | some resp => (resp, store)
                  | none =>
                    let pricePerNight : ℚ :=
                      if 0 < req.pricePerNight then req.pricePerNight else property.pricePerNight
                    let numGuests : Int := if req.numGuests ≤ 0 then 1 else req.numGuests
                    let booking : Booking :=
                      { id := ""
                        propertyId := req.propertyId
                        guestName := req.guestName
                        guestPhone := req.guestPhone
                        numGuests := numGuests
                        checkIn := checkIn
                        checkInTime := ""
                        checkOut := checkOut
                        checkOutTime := ""
                        numNights := 0
                        pricePerNight := pricePerNight
                        totalAmount := req.totalAmount
                        currency := property.currency
                        status := "pending"
                        bookedBy := claims.phone
                        inviteCode := req.inviteCode }
                    ({ statusCode := 201, errorMsg := none }, (createBooking store booking).2)

/-- Booking status values are plain strings in the source. -/
abbrev BookingStatus := String

/-- `BookingStatus.IsValid` (service.go lines 25-31): the switch accepts
exactly the four declared constants. -/
def BookingStatus.IsValid (s : BookingStatus) : Bool :=
  s == "pending" || s == "partial" || s == "settled" || s == "cancelled"

/-- `UpdateBookingStatusRequest` (handler.go lines 267-269). -/
structure UpdateBookingStatusRequest where
  status : BookingStatus
  deriving DecidableEq

/-- `HandleUpdateBookingStatus` (handler.go lines 411-501).
`authorizedForProperty` stands for the user service's
`IsAuthorizedForProperty` collaborator; notification dispatch is
fire-and-forget and not modelled.  The service-level
`UpdateBookingStatus` is the DynamoDB `SET #status = :status` update of
the addressed record. -/
def handleUpdateBookingStatus (id : String) (body? : Option UpdateBookingStatusRequest)
    (claims? : Option Claims) (authorizedForProperty : String → String → Bool)
    (store : List Booking) : ApiResponse × List Booking :=
  if id = "" then (errorResponse 400 "Booking ID is required", store)
  else
    match body? with
    | none => (errorResponse 400 "Invalid request body", store)
    | some req =>
      if BookingStatus.IsValid req.status = false then
        (errorResponse 400
          "Invalid status. Valid values: pending_confirmation, confirmed, checked_in, checked_out, cancelled, no_show",
          store)
      else
        match store.find? (fun b => b.id == id) with
        | none => (errorResponse 404 "Booking not found", store)
        | some booking =>
          match claims? with
          | none => (errorResponse 401 "Unauthorized", store)
          | some claims =>
            if claims.role ≠ "admin" ∧ claims.role ≠ "owner" ∧
                authorizedForProperty claims.phone booking.propertyId = false ∧
                booking.bookedBy ≠ claims.phone then
              (errorResponse 403 "Insufficient permissions to update this booking", store)
            else
              ({ statusCode := 200, errorMsg := none },
                store.map fun b => if b.id == id then { b with status := req.status } else b)

/-- `PaymentMethod.IsValid` (part_008 lines 39-45). -/
def PaymentMethod.IsValid (m : String) : Bool :=
  m == "cash" || m == "upi" || m == "bank_transfer" || m == "cheque" || m == "other"

/-- `LogPaymentRequest` (payments handler.go lines 49-55). -/
structure LogPaymentRequest where
  amount : ℚ
  method : String
  reference : String
  notes : String
  paymentDate : String
  deriving DecidableEq

/-- Day index of Go's zero `time.Time` (0001-01-01 UTC), the value
`IsZero` detects. -/
def goZeroTimeDay : Int := daysFromCivil 1 1 1

/-- `LogPayment` service normalisation (part_008 lines 109-137): default
the currency to `INR`, the payment date to now when it is the zero time,
and the method to `cash` when invalid, then `PutItem`. -/
def logPayment (paymentStore : List Payment) (now : Int) (payment : Payment) :
    Payment × List Payment :=
  let currency := if payment.currency = "" then "INR" else payment.currency
  let paymentDate := if payment.paymentDate = goZeroTimeDay then now else payment.paymentDate
  let method := if PaymentMethod.IsValid payment.method = false then "cash" else payment.method
  let stored := { payment with currency := currency, paymentDate := paymentDate, method := method }
  (stored, paymentStore ++ [stored])

/-- `HandleLogPayment` (payments handler.go lines 58-136): validation
gates, booking existence, payment-date parsing, then the service call;
the response is 201 whether or not the summary recomputation succeeds,
so the summary portion of the body is not modelled. -/
def handleLogPayment (bookingId : String) (claims? : Option Claims)
    (body? : Option LogPaymentRequest) (today : Int)
    (store : List Booking) (paymentStore : List Payment) :
    ApiResponse × List Payment :=
  if bookingId = "" then (errorResponse 400 "Booking ID is required", paymentStore)
  else
    match claims? with
    | none => (errorResponse 401 "Unauthorized", paymentStore)
    | some claims =>
      match body? with
      | none => (errorResponse 400 "Invalid request body", paymentStore)
      | some req =>
        if req.amount ≤ 0 then
          (errorResponse 400 "Amount must be greater than 0", paymentStore)
        else if PaymentMethod.IsValid req.method = false then
          (errorResponse 400
            "Invalid payment method. Valid values: cash, upi, bank_transfer, cheque, other",
            paymentStore)
        else
          match store.find? (fun b => b.id == bookingId) with
          | none => (errorResponse 404 "Booking not found", paymentStore)
          | some booking =>
            let parsedDate? : Option Int :=
              if req.paymentDate = "" then some today else parseDate req.paymentDate
            match parsedDate? with
            | none => (errorResponse 400 "Invalid paymentDate format. Use YYYY-MM-DD", paymentStore)
            | some paymentDate =>
              let payment : Payment :=
                { id := ""
                  bookingId := bookingId
                  amount := req.amount
                  currency := booking.currency
                  method := req.method
                  reference := req.reference
                  recordedBy := claims.phone
                  notes := req.notes
                  paymentDate := paymentDate }
              ({ statusCode := 201, errorMsg := none },
                (logPayment paymentStore today payment).2)

/-- Concrete booking records used in sanity examples and witnesses. -/
def testBooking (propertyId : String) (checkIn checkOut : Int)
    (checkInTime checkOutTime status : String) : Booking :=
  { id := "b1"
    propertyId := propertyId
    guestName := "G"
    guestPhone := "111"
    numGuests := 2
    checkIn := checkIn
    checkInTime := checkInTime
    checkOut := checkOut
    checkOutTime := checkOutTime
    numNights := 0
    pricePerNight := 0
    totalAmount := 0
    currency := "INR"
    status := status
    bookedBy := "111"
    inviteCode := "" }

/-- Concrete payment record used in witnesses. -/
def testPayment (amount : ℚ) : Payment :=
  { id := "pay1"
    bookingId := "b1"
    amount := amount
    currency := "INR"
    method := "cash"
    reference := ""
    recordedBy := "111"
    notes := ""
    paymentDate := 20490 }

example : parseDate "2026-02-01" = some 20485 := by decide
example : parseDate "2026-02-05" = some 20489 := by decide
example : parseDate "2026-2-01" = none := by decide
example : parseDate "2026-13-01" = none := by decide
example : parseDate "2025-02-29" = none := by decide
example : parseDate "2024-02-29" = some 19782 := by decide

example :
    checkAvailability [testBooking "p" 96 100 "" "" "pending"] "p" 100 102 "" "" = true := by
  decide

example :
    checkAvailability [testBooking "p" 96 100 "" "11:00" "pending"] "p" 100 102 "09:00" "" =
      false := by
  decide

example :
    checkAvailability [testBooking "p" 20485 20489 "" "" "pending"] "p" 20487 20491 "" "" =
      false := by
  decide

/-- Unfolding of the availability verdict: the check fails exactly when
some stored booking of the property lies in the fetch window and
conflicts. -/
theorem checkAvailability_eq_false_iff (store : List Booking) (pid : String)
    (cIn cOut : Int) (t1 t2 : String) :
    checkAvailability store pid cIn cOut t1 t2 = false ↔
      ∃ b ∈ store, (b.propertyId = pid ∧ cIn - 90 ≤ b.checkIn ∧ b.checkIn ≤ cOut + 1) ∧
        conflictsWith cIn cOut t1 t2 b = true := by
  simp [checkAvailability, listBookingsByProperty, List.any_eq_true, List.mem_filter,
    and_assoc]

/-- A cancelled booking never conflicts. -/
theorem conflictsWith_cancelled (cIn cOut : Int) (t1 t2 : String) (b : Booking)
    (hb : b.status = "cancelled") : conflictsWith cIn cOut t1 t2 b = false := by
  simp [conflictsWith, hb]

/-- C4: For every candidate range and every store of bookings, a booking
whose status is cancelled never causes CheckAvailability to return false:
the result is identical whether or not cancelled bookings are present,
regardless of how their dates overlap the candidate range. -/
theorem checkAvailability_ignores_cancelled (store : List Booking) (pid : String)
    (cIn cOut : Int) (t1 t2 : String) :
    checkAvailability (store.filter fun b => !(b.status == "cancelled")) pid cIn cOut t1 t2 =
      checkAvailability store pid cIn cOut t1 t2 := by
  simp only [checkAvailability, listBookingsByProperty]
  induction store with
  | nil => rfl
  | cons b l ih =>
    by_cases hb : b.status = "cancelled"
    · have h1 : (!(b.status == "cancelled")) = false := by simp [hb]
      by_cases hf : b.propertyId = pid ∧ cIn - 90 ≤ b.checkIn ∧ b.checkIn ≤ cOut + 1
      · simp only [List.filter_cons, h1, if_neg, decide_eq_true_eq, if_pos hf,
          List.any_cons, conflictsWith_cancelled cIn cOut t1 t2 b hb, Bool.false_or,
          Bool.false_eq_true] at ih ⊢
        exact ih
      · simp only [List.filter_cons, h1, decide_eq_true_eq, if_neg hf, Bool.false_eq_true,
          if_false] at ih ⊢
        exact ih
    · have h1 : (!(b.status == "cancelled")) = true := by simp [hb]
      by_cases hf : b.propertyId = pid ∧ cIn - 90 ≤ b.checkIn ∧ b.checkIn ≤ cOut + 1
      · simp only [List.filter_cons, h1, if_pos, decide_eq_true_eq, if_pos hf,
          List.any_cons] at ih ⊢
        rw [Bool.not_inj ih]
      · simp only [List.filter_cons, h1, if_pos, decide_eq_true_eq, if_neg hf,
          Bool.false_eq_true, if_false] at ih ⊢
        exact ih

/-- C7: The pairwise conflict relation computed inside CheckAvailability is
symmetric: for any two bookings A and B, each carrying its own
check-in/check-out dates and times (a booking always has its check-out
strictly after its check-in, enforced at creation and update), treating A
as the candidate and B as the existing booking yields a conflict if and
only if treating B as the candidate and A as the existing booking does —
both for the date-overlap test and for the boundary time tie-breaks. -/
theorem datesConflict_symm (A B : Booking)
    (hA : A.checkIn < A.checkOut) (hB : B.checkIn < B.checkOut) :
    datesConflict A.checkIn A.checkOut A.checkInTime A.checkOutTime
        B.checkIn B.checkOut B.checkInTime B.checkOutTime =
      datesConflict B.checkIn B.checkOut B.checkInTime B.checkOutTime
        A.checkIn A.checkOut A.checkInTime A.checkOutTime := by
  unfold datesConflict
  split_ifs <;> first | rfl | omega

/-- Witness instantiating `datesConflict_symm` at two concrete bookings. -/
theorem datesConflict_symm_witness :
    datesConflict (testBooking "p" 10 12 "14:00" "11:00" "pending").checkIn
        (testBooking "p" 10 12 "14:00" "11:00" "pending").checkOut
        (testBooking "p" 10 12 "14:00" "11:00" "pending").checkInTime
        (testBooking "p" 10 12 "14:00" "11:00" "pending").checkOutTime
        (testBooking "p" 12 15 "09:00" "" "pending").checkIn
        (testBooking "p" 12 15 "09:00" "" "pending").checkOut
        (testBooking "p" 12 15 "09:00" "" "pending").checkInTime
        (testBooking "p" 12 15 "09:00" "" "pending").checkOutTime =
      datesConflict (testBooking "p" 12 15 "09:00" "" "pending").checkIn
        (testBooking "p" 12 15 "09:00" "" "pending").checkOut
        (testBooking "p" 12 15 "09:00" "" "pending").checkInTime
        (testBooking "p" 12 15 "09:00" "" "pending").checkOutTime
        (testBooking "p" 10 12 "14:00" "11:00" "pending").checkIn
        (testBooking "p" 10 12 "14:00" "11:00" "pending").checkOut
        (testBooking "p" 10 12 "14:00" "11:00" "pending").checkInTime
        (testBooking "p" 10 12 "14:00" "11:00" "pending").checkOutTime :=
  datesConflict_symm (testBooking "p" 10 12 "14:00" "11:00" "pending")
    (testBooking "p" 12 15 "09:00" "" "pending") (by decide) (by decide)

/-- Availability against a single stored booking that the query window
fetches fails exactly when that booking conflicts. -/
theorem checkAvailability_singleton (b : Booking) (pid : String) (cIn cOut : Int)
    (t1 t2 : String) (hpid : b.propertyId = pid)
    (hlo : cIn - 90 ≤ b.checkIn) (hhi : b.checkIn ≤ cOut + 1) :
    (checkAvailability [b] pid cIn cOut t1 t2 = false ↔
      conflictsWith cIn cOut t1 t2 b = true) := by
  rw [checkAvailability_eq_false_iff]
  constructor
  · rintro ⟨x, hx, _, hconf⟩
    cases List.mem_singleton.mp hx
    exact hconf
  · intro hconf
    exact ⟨b, List.mem_singleton.mpr rfl, ⟨hpid, hlo, hhi⟩, hconf⟩

/-- C1 counterexample: an existing non-cancelled booking of the same
property running from day 0 to day 200 touches the candidate range
(day 200 to day 203) exactly at the candidate check-in, and the candidate
check-in time 12:00 is before the existing checkout time 15:00, so the
claim requires a conflict; but the booking's check-in lies more than 90
days before the candidate check-in, so the fetch window skips it and
CheckAvailability reports the dates available. -/
theorem checkAvailability_misses_old_touching_booking :
    (testBooking "p" 0 200 "" "15:00" "pending").checkOut = 200 ∧
    (testBooking "p" 0 200 "" "15:00" "pending").status ≠ "cancelled" ∧
    timeToMinutes "12:00" defaultCheckInMinutes <
      timeToMinutes (testBooking "p" 0 200 "" "15:00" "pending").checkOutTime
        defaultCheckOutMinutes ∧
    checkAvailability [testBooking "p" 0 200 "" "15:00" "pending"] "p" 200 203 "12:00" "" =
      true := by
  decide

/-- C1 (amended): for a candidate range and a stored non-cancelled booking
of the same property whose ranges touch only at a boundary, and whose
check-in date additionally lies no more than 90 days before the candidate
check-in (otherwise the fetch window skips the booking entirely),
CheckAvailability resolves the touch by time-of-day: when the candidate
check-in date equals the existing checkout date it reports a conflict
exactly when the candidate check-in time-of-minutes is strictly less than
the existing checkout time-of-minutes, and when the candidate checkout
date equals the existing check-in date it reports a conflict exactly when
the candidate checkout time-of-minutes is strictly greater than the
existing check-in time-of-minutes; missing times default to 14:00 for
check-in and 11:00 for checkout. -/
theorem boundary_touch_tiebreak (b : Booking) (pid : String) (cIn cOut : Int)
    (cInT cOutT : String) (hpid : b.propertyId = pid) (hstat : b.status ≠ "cancelled")
    (hbRange : b.checkIn < b.checkOut) (hcRange : cIn < cOut)
    (hwin : cIn - 90 ≤ b.checkIn) :
    (b.checkOut = cIn →
      (checkAvailability [b] pid cIn cOut cInT cOutT = false ↔
        timeToMinutes cInT defaultCheckInMinutes <
          timeToMinutes b.checkOutTime defaultCheckOutMinutes)) ∧
    (b.checkIn = cOut →
      (checkAvailability [b] pid cIn cOut cInT cOutT = false ↔
        timeToMinutes cOutT defaultCheckOutMinutes >
          timeToMinutes b.checkInTime defaultCheckInMinutes)) := by
  constructor
  · intro htouch
    rw [checkAvailability_singleton b pid cIn cOut cInT cOutT hpid hwin (by omega)]
    simp only [conflictsWith, if_neg hstat, datesConflict]
    rw [if_pos (by omega : cIn ≤ b.checkOut ∧ b.checkIn ≤ cOut),
      if_pos htouch.symm, decide_eq_true_eq]
  · intro htouch
    rw [checkAvailability_singleton b pid cIn cOut cInT cOutT hpid (by omega) (by omega)]
    simp only [conflictsWith, if_neg hstat, datesConflict]
    rw [if_pos (by omega : cIn ≤ b.checkOut ∧ b.checkIn ≤ cOut),
      if_neg (by omega : ¬cIn = b.checkOut), if_pos htouch.symm, decide_eq_true_eq]

/-- Witness instantiating `boundary_touch_tiebreak`: a same-day turnover
with default candidate check-in time 14:00 against existing checkout time
11:00 is reported available. -/
theorem boundary_touch_tiebreak_witness :
    checkAvailability [testBooking "p" 150 200 "" "11:00" "pending"] "p" 200 205 "14:00" "" =
      true := by
  have h := (boundary_touch_tiebreak (testBooking "p" 150 200 "" "11:00" "pending") "p"
    200 205 "14:00" "" rfl (by decide) (by decide) (by decide) (by decide)).1 rfl
  rcases Bool.eq_false_or_eq_true
      (checkAvailability [testBooking "p" 150 200 "" "11:00" "pending"] "p" 200 205 "14:00" "")
    with hT | hF
  · exact hT
  · exact absurd (h.mp hF) (by decide)

/-- C2 counterexample: a stored non-cancelled booking of the property from
day 9 to day 105 overlaps the candidate range (day 100 to day 103) in far
more than a boundary touch, but its check-in lies 91 days before the
candidate check-in, outside the fetch window of 90 days back, so
CheckAvailability reports the dates available. -/
theorem checkAvailability_misses_old_overlapping_booking :
    (testBooking "p" 9 105 "" "" "pending").checkIn ≤ 103 ∧
    (100 : Int) ≤ (testBooking "p" 9 105 "" "" "pending").checkOut ∧
    (100 : Int) ≠ (testBooking "p" 9 105 "" "" "pending").checkOut ∧
    (103 : Int) ≠ (testBooking "p" 9 105 "" "" "pending").checkIn ∧
    (testBooking "p" 9 105 "" "" "pending").status ≠ "cancelled" ∧
    checkAvailability [testBooking "p" 9 105 "" "" "pending"] "p" 100 103 "" "" = true := by
  decide

/-- C2 (amended): for every stored non-cancelled booking of the property
whose date range overlaps the candidate range in more than a pure
boundary touch and whose check-in date lies inside the fetch window —
between 90 days before the candidate check-in and one day after the
candidate checkout — CheckAvailability returns false; a booking whose
check-in is more than 90 days before the candidate check-in is outside
the window and can be missed even when it overlaps. -/
theorem overlap_in_window_blocks (store : List Booking) (b : Booking) (pid : String)
    (cIn cOut : Int) (t1 t2 : String) (hmem : b ∈ store) (hpid : b.propertyId = pid)
    (hstat : b.status ≠ "cancelled") (hwin : cIn - 90 ≤ b.checkIn)
    (hov1 : cIn ≤ b.checkOut) (hov2 : b.checkIn ≤ cOut)
    (hnt1 : cIn ≠ b.checkOut) (hnt2 : cOut ≠ b.checkIn) :
    checkAvailability store pid cIn cOut t1 t2 = false := by
  rw [checkAvailability_eq_false_iff]
  refine ⟨b, hmem, ⟨hpid, hwin, by omega⟩, ?_⟩
  simp only [conflictsWith, if_neg hstat, datesConflict]
  rw [if_pos ⟨hov1, hov2⟩, if_neg hnt1, if_neg hnt2]

/-- The accumulation loop of `CalculatePaymentStatus` computes the sum of
the payment amounts. -/
theorem totalPaidOf_eq_sum (ps : List Payment) :
    totalPaidOf ps = (ps.map Payment.amount).sum := by
  have h : ∀ (l : List Payment) (a : ℚ),
      l.foldl (fun acc p => acc + p.amount) a = a + (l.map Payment.amount).sum := by
    intro l
    induction l with
    | nil => intro a; simp
    | cons p l ih => intro a; simp [ih, add_assoc]
  simpa using h ps 0

/-- Appending one payment adds its amount to the running total. -/
theorem totalPaidOf_append (ps : List Payment) (p : Payment) :
    totalPaidOf (ps ++ [p]) = totalPaidOf ps + p.amount := by
  simp [totalPaidOf, List.foldl_append]

/-- C3 counterexample: a booking whose stored totalAmount is negative (the
API never validates totalAmount, so such a record is storable) with zero
payments is classified PENDING, a branch that performs no clamping, so
totalDue equals the negative totalAmount rather than
max(0, totalAmount − totalPaid). -/
theorem paymentStatus_negative_totalDue :
    (calculatePaymentStatus { testBooking "p" 0 2 "" "" "pending" with totalAmount := -100 }
        []).totalDue = -100 ∧
    (calculatePaymentStatus { testBooking "p" 0 2 "" "" "pending" with totalAmount := -100 }
        []).totalDue < 0 ∧
    (calculatePaymentStatus { testBooking "p" 0 2 "" "" "pending" with totalAmount := -100 }
          []).totalDue ≠
      max 0 ({ testBooking "p" 0 2 "" "" "pending" with totalAmount := -100 }.totalAmount -
        (calculatePaymentStatus { testBooking "p" 0 2 "" "" "pending" with totalAmount := -100 }
          []).totalPaid) := by
  refine ⟨?_, ?_, ?_⟩ <;>
    simp [calculatePaymentStatus, totalPaidOf, testBooking]

/-- C3 (amended): for every booking whose totalAmount is nonnegative (the
only case the clamp-free PENDING branch keeps safe; a stored negative
totalAmount with no payments yields a negative totalDue) and every
payment set, CalculatePaymentStatus returns totalPaid equal to the sum of
all payment amounts, status PENDING exactly when there are zero payments,
COMPLETED exactly when at least one payment exists and totalPaid is at
least the booking's totalAmount, DUE otherwise, and totalDue equal to
max(0, totalAmount − totalPaid), never negative, including under
overpayment. -/
theorem calculatePaymentStatus_spec (bk : Booking) (ps : List Payment)
    (hT : 0 ≤ bk.totalAmount) :
    (calculatePaymentStatus bk ps).totalPaid = (ps.map Payment.amount).sum ∧
    ((calculatePaymentStatus bk ps).status = PaymentStatus.pending ↔ ps = []) ∧
    ((calculatePaymentStatus bk ps).status = PaymentStatus.completed ↔
      ps ≠ [] ∧ bk.totalAmount ≤ totalPaidOf ps) ∧
    ((calculatePaymentStatus bk ps).status = PaymentStatus.due ↔
      ps ≠ [] ∧ totalPaidOf ps < bk.totalAmount) ∧
    (calculatePaymentStatus bk ps).totalDue = max 0 (bk.totalAmount - totalPaidOf ps) ∧
    0 ≤ (calculatePaymentStatus bk ps).totalDue := by
  have hdue : (calculatePaymentStatus bk ps).totalDue =
      max 0 (bk.totalAmount - totalPaidOf ps) := by
    unfold calculatePaymentStatus
    simp only
    split_ifs with h
    · exact (max_eq_left (by linarith [h.2])).symm
    · rcases not_and_or.mp h with h1 | h2
      · have hnil : ps = [] := List.length_eq_zero.mp (not_not.mp h1)
        subst hnil
        simp only [totalPaidOf, List.foldl_nil, sub_zero]
        exact (max_eq_right hT).symm
      · exact (max_eq_right (by linarith [lt_of_not_le h2])).symm
  refine ⟨totalPaidOf_eq_sum ps, ?_, ?_, ?_, hdue, ?_⟩
  · unfold calculatePaymentStatus
    simp only
    split_ifs with h1 h2
    · simp [List.length_eq_zero.mp h1]
    · exact ⟨fun h => absurd h (by decide), fun h => absurd (List.length_eq_zero.mpr h) h1⟩
    · exact ⟨fun h => absurd h (by decide), fun h => absurd (List.length_eq_zero.mpr h) h1⟩
  · unfold calculatePaymentStatus
    simp only
    split_ifs with h1 h2
    · exact ⟨fun h => absurd h (by decide),
        fun h => absurd (List.length_eq_zero.mp h1) h.1⟩
    · exact ⟨fun _ => ⟨fun h => h1 (List.length_eq_zero.mpr h), h2⟩, fun _ => rfl⟩
    · exact ⟨fun h => absurd h (by decide), fun h => absurd h.2 h2⟩
  · unfold calculatePaymentStatus
    simp only
    split_ifs with h1 h2
    · exact ⟨fun h => absurd h (by decide),
        fun h => absurd (List.length_eq_zero.mp h1) h.1⟩
    · exact ⟨fun h => absurd h (by decide), fun h => absurd h2 (not_le.mpr h.2)⟩
    · exact ⟨fun _ => ⟨fun h => h1 (List.length_eq_zero.mpr h), lt_of_not_le h2⟩,
        fun _ => rfl⟩
  · rw [hdue]
    exact le_max_left 0 _

/-- Witness instantiating `calculatePaymentStatus_spec`: booking total 100
with a single payment of 30. -/
theorem calculatePaymentStatus_spec_witness :
    (calculatePaymentStatus { testBooking "p" 20485 20489 "" "" "pending" with totalAmount := 100 }
        [testPayment 30]).totalDue =
      max 0 ({ testBooking "p" 20485 20489 "" "" "pending" with totalAmount := 100 }.totalAmount -
        totalPaidOf [testPayment 30]) :=
  (calculatePaymentStatus_spec
    { testBooking "p" 20485 20489 "" "" "pending" with totalAmount := 100 }
    [testPayment 30] (by norm_num [testBooking])).2.2.2.2.1

/-- C6 counterexample: on a stored booking with negative totalAmount (which
the API accepts unvalidated) and no payments, totalDue is the negative
totalAmount; appending a positive payment flips the summary to the
clamped COMPLETED branch, raising totalDue from −1 to 0, so adding a
payment can increase totalDue. -/
theorem totalDue_increases_on_negative_total :
    0 < (testPayment 1).amount ∧
    (calculatePaymentStatus { testBooking "p" 0 2 "" "" "pending" with totalAmount := -1 }
        []).totalDue <
      (calculatePaymentStatus { testBooking "p" 0 2 "" "" "pending" with totalAmount := -1 }
        ([] ++ [testPayment 1])).totalDue := by
  constructor
  · norm_num [testPayment]
  · norm_num [calculatePaymentStatus, totalPaidOf, testBooking, testPayment]

/-- C6 (amended): appending one additional payment of strictly positive
amount (the only amounts HandleLogPayment accepts — a nonpositive amount
is rejected with HTTP 400 before anything is stored) adds that amount to
totalPaid, so totalPaid never decreases and is monotonically
non-decreasing as payments accumulate; and for bookings whose totalAmount
is nonnegative (a stored negative totalAmount with no payments starts
with a negative, unclamped totalDue that a first payment raises to 0) it
never increases the totalDue reported by CalculatePaymentStatus. -/
theorem payment_monotonicity (bk : Booking) (ps : List Payment) (p : Payment)
    (hpos : 0 < p.amount) :
    (calculatePaymentStatus bk (ps ++ [p])).totalPaid =
      (calculatePaymentStatus bk ps).totalPaid + p.amount ∧
    (calculatePaymentStatus bk ps).totalPaid ≤
      (calculatePaymentStatus bk (ps ++ [p])).totalPaid ∧
    (0 ≤ bk.totalAmount →
      (calculatePaymentStatus bk (ps ++ [p])).totalDue ≤
        (calculatePaymentStatus bk ps).totalDue) ∧
    (∀ (bid : String) (c : Claims) (req : LogPaymentRequest) (today : Int)
        (store : List Booking) (payStore : List Payment),
      bid ≠ "" → req.amount ≤ 0 →
      handleLogPayment bid (some c) (some req) today store payStore =
        (errorResponse 400 "Amount must be greater than 0", payStore)) := by
  have hpaid : (calculatePaymentStatus bk (ps ++ [p])).totalPaid =
      (calculatePaymentStatus bk ps).totalPaid + p.amount := by
    simp [calculatePaymentStatus, totalPaidOf_append]
  refine ⟨hpaid, by rw [hpaid]; linarith, ?_, ?_⟩
  · intro hT
    unfold calculatePaymentStatus
    simp only [totalPaidOf_append, List.length_append, List.length_singleton]
    split_ifs with h1 h2
    · exact le_refl 0
    · rcases not_and_or.mp h2 with h3 | h3
      · have hnil : ps = [] := List.length_eq_zero.mp (not_not.mp h3)
        have hzero : totalPaidOf ps = 0 := by rw [hnil]; rfl
        rw [hzero]
        linarith
      · linarith [lt_of_not_le h3]
    · have h3 : ¬bk.totalAmount ≤ totalPaidOf ps + p.amount :=
        fun hle => h1 ⟨Nat.succ_ne_zero ps.length, hle⟩
      linarith [lt_of_not_le h3]
    · linarith
  · intro bid c req today store payStore hbid hamt
    simp [handleLogPayment, hbid, hamt]

/-- Witness instantiating `payment_monotonicity`: logging a payment of 50
against a booking with total 100. -/
theorem payment_monotonicity_witness :
    (calculatePaymentStatus { testBooking "p" 20485 20489 "" "" "pending" with totalAmount := 100 }
        ([] ++ [testPayment 50])).totalPaid =
      (calculatePaymentStatus { testBooking "p" 20485 20489 "" "" "pending" with totalAmount := 100 }
        []).totalPaid + (testPayment 50).amount :=
  (payment_monotonicity { testBooking "p" 20485 20489 "" "" "pending" with totalAmount := 100 }
    [] (testPayment 50) (by norm_num [testPayment])).1

/-- The night-count arithmetic of CreateBooking is exact: hours divided by
24 and truncated is the whole-day difference. -/
theorem numNightsCalc_eq (a b : Int) : numNightsCalc a b = b - a := by
  unfold numNightsCalc goTruncRat
  rw [mul_div_cancel_right₀ _ (by norm_num : (24 : ℚ) ≠ 0)]
  split_ifs
  · exact Int.floor_intCast _
  · exact Int.ceil_intCast _

/-- C5: for every booking passed to CreateBooking with NumNights and
TotalAmount both unset (zero), check-in and check-out dates (UTC-midnight
instants, as produced by parsing YYYY-MM-DD) with check-out strictly
after check-in, and PricePerNight positive, the stored booking has
NumNights equal to the whole-day difference between check-out and
check-in and TotalAmount equal to PricePerNight times that night count;
the clock-time string fields play no role in either value. -/
theorem createBooking_nights_amount (b : Booking)
    (hn : b.numNights = 0) (ht : b.totalAmount = 0)
    (_hrange : b.checkIn < b.checkOut) (hp : 0 < b.pricePerNight) :
    (createBookingNormalize b).numNights = b.checkOut - b.checkIn ∧
    (createBookingNormalize b).totalAmount =
      b.pricePerNight * ((b.checkOut - b.checkIn : Int) : ℚ) ∧
    (∀ store : List Booking, (createBooking store b).2 = store ++ [createBookingNormalize b]) ∧
    (∀ t1 t2 : String,
      (createBookingNormalize { b with checkInTime := t1, checkOutTime := t2 }).numNights =
        (createBookingNormalize b).numNights ∧
      (createBookingNormalize { b with checkInTime := t1, checkOutTime := t2 }).totalAmount =
        (createBookingNormalize b).totalAmount) := by
  refine ⟨?_, ?_, fun store => rfl, ?_⟩
  · simp [createBookingNormalize, hn, numNightsCalc_eq]
  · simp [createBookingNormalize, hn, ht, hp, numNightsCalc_eq]
  · intro t1 t2
    constructor
    · simp [createBookingNormalize]
    · simp [createBookingNormalize]

/-- Witness instantiating `createBooking_nights_amount` at the spec's
end-to-end scenario: 2026-02-01 (day 20485) to 2026-02-05 (day 20489) at
nightly price 5000 yields 4 nights and totalAmount 20000. -/
theorem createBooking_nights_amount_witness :
    (createBookingNormalize
        { testBooking "p" 20485 20489 "" "" "" with pricePerNight := 5000 }).numNights = 4 ∧
    (createBookingNormalize
        { testBooking "p" 20485 20489 "" "" "" with pricePerNight := 5000 }).totalAmount =
      20000 := by
  have h := createBooking_nights_amount
    { testBooking "p" 20485 20489 "" "" "" with pricePerNight := 5000 }
    rfl rfl (by decide) (by norm_num [testBooking])
  refine ⟨?_, ?_⟩
  · rw [h.1]; decide
  · rw [h.2.1]
    norm_num [testBooking]

/-- Witness instantiating `overlap_in_window_blocks` at the spec's
conflict-rejection scenario: booking A occupies 2026-02-01 to 2026-02-05
and a request for 2026-02-03 to 2026-02-07 on the same property is
rejected as unavailable. -/
theorem overlap_in_window_blocks_witness :
    checkAvailability [testBooking "p" 20485 20489 "" "" "pending"] "p" 20487 20491 "" "" =
      false :=
  overlap_in_window_blocks [testBooking "p" 20485 20489 "" "" "pending"]
    (testBooking "p" 20485 20489 "" "" "pending") "p" 20487 20491 "" ""
    (List.mem_singleton.mpr rfl) rfl (by decide) (by decide) (by decide) (by decide)
    (by decide) (by decide)
/-- C8: when the availability check returns false during booking creation,
HandleCreateBooking returns a conflict signal — HTTP 409 with the
dates-unavailable message — that is distinct from the 404 not-found signal
for a missing property and from 400 validation errors, and no booking is
persisted in that case: the booking store is returned unchanged on the
conflict path. -/
theorem handleCreateBooking_conflict (c : Claims) (req : CreateBookingRequest)
    (today : Int) (properties : List Property) (validateInvite : String → Option String)
    (store : List Booking) (checkIn checkOut : Int) (property : Property)
    (hfields : ¬(req.propertyId = "" ∨ req.guestName = "" ∨ req.guestPhone = "" ∨
      req.checkIn = "" ∨ req.checkOut = ""))
    (hci : parseDate req.checkIn = some checkIn)
    (hco : parseDate req.checkOut = some checkOut)
    (horder : ¬checkOut ≤ checkIn) (hpast : ¬checkIn < today)
    (hprop : properties.find? (fun p => p.id == req.propertyId) = some property)
    (hact : property.isActive = true)
    (havail : checkAvailability store req.propertyId checkIn checkOut "" "" = false) :
    handleCreateBooking (some c) (some req) today properties validateInvite store =
      (errorResponse 409 "Property is not available for the selected dates", store) ∧
    (errorResponse 409 "Property is not available for the selected dates").statusCode ≠ 404 ∧
    (errorResponse 409 "Property is not available for the selected dates").statusCode ≠ 400 := by
  refine ⟨?_, by decide, by decide⟩
  simp [handleCreateBooking, hfields, hci, hco, horder, hpast, hprop, hact, havail]

/-- Witness instantiating `handleCreateBooking_conflict`: booking
2026-02-01 to 2026-02-05 occupies the property, so a request for
2026-02-03 to 2026-02-07 gets 409 and the store is unchanged. -/
theorem handleCreateBooking_conflict_witness :
    handleCreateBooking (some { phone := "111", role := "admin" })
        (some { propertyId := "p", guestName := "G", guestPhone := "222", guestEmail := ""
                numGuests := 4, checkIn := "2026-02-03", checkOut := "2026-02-07"
                notes := "", specialRequests := "", inviteCode := ""
                pricePerNight := 0, totalAmount := 0, agentCommission := 0 })
        20454
        [{ id := "p", name := "Beach Villa", ownerId := "111", pricePerNight := 5000
           currency := "INR", isActive := true }]
        (fun _ => none)
        [testBooking "p" 20485 20489 "" "" "pending"] =
      (errorResponse 409 "Property is not available for the selected dates",
        [testBooking "p" 20485 20489 "" "" "pending"]) :=
  (handleCreateBooking_conflict { phone := "111", role := "admin" }
    { propertyId := "p", guestName := "G", guestPhone := "222", guestEmail := ""
      numGuests := 4, checkIn := "2026-02-03", checkOut := "2026-02-07"
      notes := "", specialRequests := "", inviteCode := ""
      pricePerNight := 0, totalAmount := 0, agentCommission := 0 }
    20454
    [{ id := "p", name := "Beach Villa", ownerId := "111", pricePerNight := 5000
       currency := "INR", isActive := true }]
    (fun _ => none)
    [testBooking "p" 20485 20489 "" "" "pending"] 20487 20491
    { id := "p", name := "Beach Villa", ownerId := "111", pricePerNight := 5000
      currency := "INR", isActive := true }
    (by decide) (by decide) (by decide) (by decide) (by decide) (by decide) (by decide)
    (by decide)).1

/-- C9: BookingStatus.IsValid returns true for exactly the four values
pending, partial, settled and cancelled; consequently
HandleUpdateBookingStatus rejects with a 400 validation error every
status value except these four — including pending_confirmation,
confirmed, checked_in, checked_out and no_show, the very values its own
error message advertises as valid. -/
theorem bookingStatus_isValid_spec :
    (∀ s : BookingStatus, BookingStatus.IsValid s = true ↔
      (s = "pending" ∨ s = "partial" ∨ s = "settled" ∨ s = "cancelled")) ∧
    (∀ (id : String) (req : UpdateBookingStatusRequest) (claims? : Option Claims)
        (auth : String → String → Bool) (store : List Booking),
      id ≠ "" → BookingStatus.IsValid req.status = false →
      handleUpdateBookingStatus id (some req) claims? auth store =
        (errorResponse 400
          "Invalid status. Valid values: pending_confirmation, confirmed, checked_in, checked_out, cancelled, no_show",
          store)) ∧
    BookingStatus.IsValid "pending_confirmation" = false ∧
    BookingStatus.IsValid "confirmed" = false ∧
    BookingStatus.IsValid "checked_in" = false ∧
    BookingStatus.IsValid "checked_out" = false ∧
    BookingStatus.IsValid "no_show" = false := by
  refine ⟨?_, ?_, by decide, by decide, by decide, by decide, by decide⟩
  · intro s
    simp only [BookingStatus.IsValid, Bool.or_eq_true, beq_iff_eq, or_assoc]
  · intro id req claims? auth store hid hinv
    simp [handleUpdateBookingStatus, hid, hinv]

/-- Witness instantiating `bookingStatus_isValid_spec`: the advertised
value "confirmed" is rejected with 400. -/
theorem bookingStatus_isValid_spec_witness :
    handleUpdateBookingStatus "b1" (some { status := "confirmed" }) none (fun _ _ => false)
        [] =
      (errorResponse 400
        "Invalid status. Valid values: pending_confirmation, confirmed, checked_in, checked_out, cancelled, no_show",
        []) :=
  bookingStatus_isValid_spec.2.1 "b1" { status := "confirmed" } none (fun _ _ => false) []
    (by decide) (by decide)

/-- A time string that fails to parse yields the supplied default. -/
theorem timeToMinutes_of_parse_fail (t : String) (d : Nat) (h : parseClock t = none) :
    timeToMinutes t d = d := by
  unfold timeToMinutes
  rw [h]
  exact ite_self d

/-- The empty time string yields the supplied default. -/
theorem timeToMinutes_empty (d : Nat) : timeToMinutes "" d = d := rfl

/-- Any over a list respects pointwise-equal predicates. -/
theorem any_congr_fun {α : Type} (l : List α) (p q : α → Bool) (h : ∀ a, p a = q a) :
    l.any p = l.any q := by
  induction l with
  | nil => rfl
  | cons a l ih => simp [List.any_cons, h a, ih]

/-- C10: in CheckAvailability, a check-in or check-out time string that
fails to parse as HH:MM is treated exactly like an absent time: it falls
back to the default time-of-day (14:00 for check-in, 11:00 for checkout)
and the availability result for a malformed time string equals the result
for the empty string.  The embedding is total: CheckAvailability's only
error return is the storage fetch, never time parsing. -/
theorem malformed_time_like_empty :
    (∀ (t : String) (d : Nat), parseClock t = none →
      timeToMinutes t d = timeToMinutes "" d) ∧
    (∀ (store : List Booking) (pid : String) (cIn cOut : Int) (tIn tOut : String),
      parseClock tIn = none →
      checkAvailability store pid cIn cOut tIn tOut =
        checkAvailability store pid cIn cOut "" tOut) ∧
    (∀ (store : List Booking) (pid : String) (cIn cOut : Int) (tIn tOut : String),
      parseClock tOut = none →
      checkAvailability store pid cIn cOut tIn tOut =
        checkAvailability store pid cIn cOut tIn "") := by
  refine ⟨?_, ?_, ?_⟩
  · intro t d h
    rw [timeToMinutes_of_parse_fail t d h, timeToMinutes_empty]
  · intro store pid cIn cOut tIn tOut h
    have hcw : ∀ b, conflictsWith cIn cOut tIn tOut b = conflictsWith cIn cOut "" tOut b := by
      intro b
      simp only [conflictsWith, datesConflict,
        timeToMinutes_of_parse_fail tIn defaultCheckInMinutes h, timeToMinutes_empty]
    simp only [checkAvailability]
    rw [any_congr_fun _ _ _ hcw]
  · intro store pid cIn cOut tIn tOut h
    have hcw : ∀ b, conflictsWith cIn cOut tIn tOut b = conflictsWith cIn cOut tIn "" b := by
      intro b
      simp only [conflictsWith, datesConflict,
        timeToMinutes_of_parse_fail tOut defaultCheckOutMinutes h, timeToMinutes_empty]
    simp only [checkAvailability]
    rw [any_congr_fun _ _ _ hcw]

/-- Witness instantiating `malformed_time_like_empty` with the malformed
time string 25:00. -/
theorem malformed_time_like_empty_witness :
    checkAvailability [testBooking "p" 96 100 "" "" "pending"] "p" 100 102 "25:00" "" =
      checkAvailability [testBooking "p" 96 100 "" "" "pending"] "p" 100 102 "" "" :=
  malformed_time_like_empty.2.1 [testBooking "p" 96 100 "" "" "pending"] "p" 100 102
    "25:00" "" (by decide)

example : parseClock "15:04" = some 904 := by decide
example : parseClock "9:05" = some 545 := by decide
example : parseClock "25:00" = none := by decide
example : parseClock "12:60" = none := by decide
example : parseClock "12:5" = none := by decide
example : parseClock "" = none := by decide
example : parseClock "12:345" = none := by decide
example : timeToMinutes "" 840 = 840 := by decide
example : timeToMinutes "xx" 660 = 660 := by decide

end BookingVilla
